import Mathlib

/-!
Verification of the mood-tracker Slack bot against its design spec.

The definitions below are a shallow embedding of the TypeScript sources:
the webhook router and signature verification (the serverless events
handler), the interaction handlers and the persist-and-notify sequence,
the scheduler-triggered daily check-in endpoint, and the standalone
check-in script.  External services (Slack web API, the database, the
HMAC primitive, the JSON parser) are modelled as explicit parameters or
oracles; the control flow, field selection and string handling follow
the source line by line, including JavaScript truthiness where the code
relies on it.
-/

namespace MoodTracker

/-- JavaScript truthiness of an optional string: undefined and the empty
string are falsy, every other string is truthy. -/
def otruthy : Option String → Bool
  | none => false
  | some s => s ≠ ""

/-- JavaScript expression v OR null as applied to an optional string
value: a falsy value (undefined or empty) becomes null, anything else is
kept unchanged. -/
def jsOrNull (v : Option String) : Option String :=
  if otruthy v then v else none

/-- JavaScript expression a OR b on optional strings: keep a when truthy,
else fall through to b. -/
def jsOr (a b : Option String) : Option String :=
  if otruthy a then a else b

/-- JavaScript expression a OR b where the fallback b is a plain string:
a falsy a (undefined or empty) yields b. -/
def jsOrS (a : Option String) (b : String) : String :=
  match a with
  | none => b
  | some s => if s = "" then b else s

/-- Longest leading run of decimal digits of a character list. -/
def leadingDigits : List Char → List Char
  | [] => []
  | c :: cs => if c.isDigit then c :: leadingDigits cs else []

/-- Numeric value of a digit list (most significant first). -/
def digitsVal : List Char → Nat
  | [] => 0
  | c :: cs => (c.toNat - 48) * 10 ^ cs.length + digitsVal cs

/-- JavaScript parseInt restricted to base 10: an optional sign followed
by at least one digit parses to the value of the longest digit run; a
string with no leading digits gives NaN, modelled as none. -/
def parseIntJS (s : String) : Option Int :=
  match s.data with
  | '-' :: rest =>
      match leadingDigits rest with
      | [] => none
      | ds => some (-(digitsVal ds : Int))
  | '+' :: rest =>
      match leadingDigits rest with
      | [] => none
      | ds => some (digitsVal ds : Int)
  | l =>
      match leadingDigits l with
      | [] => none
      | ds => some (digitsVal ds : Int)

/-- Node crypto.timingSafeEqual on UTF-8 encoded strings: comparing two
buffers of different byte length raises (modelled as Except.error);
equal-length buffers compare to a Boolean. -/
def timingSafeEqual (a b : String) : Except Unit Bool :=
  if a.utf8ByteSize = b.utf8ByteSize then .ok (a = b) else .error ()

/-- An inbound HTTP request as the router sees it: method, the two Slack
headers, the content type, and the raw unparsed body. -/
structure SlackReq where
  method : String
  timestampHeader : Option String
  signatureHeader : Option String
  contentType : String
  rawBody : String
deriving DecidableEq, Repr

/-- Signature base string v0:timestamp:rawBody. -/
def sigBasestring (ts body : String) : String :=
  "v0:" ++ ts ++ ":" ++ body

/-- The signature the server computes: v0= followed by the hex HMAC-SHA256
of the base string under the signing secret.  The HMAC primitive is a
parameter hmacHex taking the secret and the message. -/
def mkSignature (hmacHex : String → String → String) (secret ts body : String) : String :=
  "v0=" ++ hmacHex secret (sigBasestring ts body)

/-- verifySlackSignature from the events handler: require both headers
truthy, reject a timestamp more than 300 seconds from now, then compare
the computed signature to the header with timingSafeEqual.  now is the
current Unix time in seconds; a non-numeric timestamp makes the
staleness comparison NaN GT 300, which is false, so it does not reject. -/
def verifySlackSignature (hmacHex : String → String → String) (secret : String)
    (now : Int) (req : SlackReq) : Except Unit Bool :=
  match req.timestampHeader, req.signatureHeader with
  | some ts, some sig =>
      if ts = "" ∨ sig = "" then .ok false
      else
        let stale : Bool :=
          match parseIntJS ts with
          | some t => (now - t).natAbs > 300
          | none => false
        if stale then .ok false
        else timingSafeEqual (mkSignature hmacHex secret ts req.rawBody) sig
  | _, _ => .ok false

/-- The fields of the parsed request body that the router inspects. -/
structure ParsedBody where
  typeField : Option String
  challenge : Option String
  command : Option String
  payload : Option String
deriving DecidableEq, Repr

/-- Where the router dispatched the request, or how it stopped. -/
inductive RouteAction
  | methodNotAllowed
  | challengeEcho (challenge : Option String)
  | unauthorized
  | signatureException
  | slashCommand (body : ParsedBody)
  | interaction (payloadJson : String)
  | eventCallback
  | emptyAck
deriving DecidableEq, Repr

/-- HTTP status plus the dispatch decision of the router. -/
structure RouterResult where
  status : Nat
  action : RouteAction
deriving DecidableEq, Repr

/-- The dispatch outcomes in which the router accepted the request and
ran a handler (anything past the signature gate). -/
def RouteAction.isRouted : RouteAction → Bool
  | .slashCommand _ => true
  | .interaction _ => true
  | .eventCallback => true
  | .emptyAck => true
  | _ => false

/-- The main webhook handler: reject non-POST with 405; parse the body
from the raw bytes (the parser is the parameter parse, applied to the
content type and the raw body); echo a url_verification challenge with
no signature check; otherwise verify the signature over the raw body and
401 on failure (an exception from timingSafeEqual escapes as a server
error); finally classify into slash command, interaction, event callback
or empty acknowledgement. -/
def handler (hmacHex : String → String → String) (secret : String) (now : Int)
    (parse : String → String → ParsedBody) (req : SlackReq) : RouterResult :=
  if req.method ≠ "POST" then ⟨405, .methodNotAllowed⟩
  else
    let body := parse req.contentType req.rawBody
    if body.typeField = some "url_verification" then ⟨200, .challengeEcho body.challenge⟩
    else
      match verifySlackSignature hmacHex secret now req with
      | .error _ => ⟨500, .signatureException⟩
      | .ok false => ⟨401, .unauthorized⟩
      | .ok true =>
          if otruthy body.command then ⟨200, .slashCommand body⟩
          else if otruthy body.payload then ⟨200, .interaction (body.payload.getD "")⟩
          else if body.typeField = some "event_callback" then ⟨200, .eventCallback⟩
          else ⟨200, .emptyAck⟩

/-- One entry of the MOODS configuration table. -/
structure Mood where
  score : Int
  emoji : String
  label : String
  action_id : String
deriving DecidableEq, Repr

/-- The five mood buttons exactly as configured in the source. -/
def MOODS : List Mood :=
  [ ⟨1, "😭", "Awful", "mood_1"⟩,
    ⟨2, "☹️", "Not great", "mood_2"⟩,
    ⟨3, "😐", "Okay", "mood_3"⟩,
    ⟨4, "🙂", "Good", "mood_4"⟩,
    ⟨5, "😄", "Great", "mood_5"⟩ ]

/-- The JSON object serialized into a mood button value. -/
structure ButtonValue where
  score : Int
  emoji : String
  source_channel_id : Option String
  response_url : Option String
deriving DecidableEq, Repr

/-- buildMoodMessage attaches to the button with a mood action id the
value object holding that mood score and emoji plus the source channel
and response url of the triggering flow. -/
def buttonValue (m : Mood) (sourceChannelId responseUrl : Option String) : ButtonValue :=
  ⟨m.score, m.emoji, sourceChannelId, responseUrl⟩

/-- The private_metadata object a block_actions press serializes into the
modal, one field per line of the source: score and emoji from the button
value, channel_id resolved as source_channel_id OR the channel of the
pressed message, message_ts from the pressed message, response_url from
the button value. -/
structure ViewMetadata where
  score : Int
  emoji : String
  channel_id : Option String
  message_ts : Option String
  response_url : Option String
deriving DecidableEq, Repr

/-- Metadata built by the block_actions branch of handleInteraction from
the button value and the channel and timestamp of the message the button
lives in. -/
def modalMetadata (v : ButtonValue) (payloadChannelId messageTs : Option String) :
    ViewMetadata :=
  ⟨v.score, v.emoji, jsOr v.source_channel_id payloadChannelId, messageTs, v.response_url⟩

/-- The result of the Slack users.info lookup that the persist sequence
performs, reduced to the fields the code reads. -/
structure UserInfo where
  name : Option String
  display_name : Option String
  real_name : Option String
  is_bot : Bool
  deleted : Bool
deriving DecidableEq, Repr

/-- displayName = profile.display_name OR profile.real_name OR Someone. -/
def displayNameOf (u : UserInfo) : String :=
  jsOrS u.display_name (jsOrS u.real_name "Someone")

/-- A row of the mood_entries table as built by the insert calls. -/
structure MoodRow where
  slack_user_id : String
  slack_username : Option String
  slack_display_name : Option String
  mood_score : Int
  mood_emoji : String
  additional_context : Option String
  slack_team_id : Option String
deriving DecidableEq, Repr

/-- The row saveMoodEntry inserts: user id, username and resolved display
name from the lookup, score and emoji from the modal metadata, the
context value as passed in, and the team id. -/
def moodRow (userId : String) (u : UserInfo) (meta : ViewMetadata)
    (contextValue : Option String) (teamId : Option String) : MoodRow :=
  { slack_user_id := userId,
    slack_username := u.name,
    slack_display_name := some (displayNameOf u),
    mood_score := meta.score,
    mood_emoji := meta.emoji,
    additional_context := contextValue,
    slack_team_id := teamId }

/-- The CHECK constraint of the mood_entries table on mood_score. -/
def moodScoreCheck (r : MoodRow) : Bool :=
  1 ≤ r.mood_score ∧ r.mood_score ≤ 5

/-- Observable side effects of the handlers: Slack API calls, the
database insert, and log lines. -/
inductive Effect
  | usersInfo (userId : String)
  | insert (row : MoodRow)
  | viewsOpen (meta : ViewMetadata)
  | chatUpdate (channel ts : String)
  | respUrlPost (url : String)
  | postMessage (channel : String)
  | postEphemeral (channel user : String)
  | logMsg (s : String)
deriving DecidableEq, Repr

/-- Outcomes of the external calls the persist-and-notify sequence makes,
plus the configured announcement channel: userInfoResult none means the
users.info call threw; insertOk is whether the database insert returned
without error; the Booleans record whether each Slack call or the
response_url fetch succeeded. -/
structure World where
  userInfoResult : Option UserInfo
  insertOk : Bool
  updateOk : Bool
  respUrlOk : Bool
  confirmOk : Bool
  dmOk : Bool
  moodChannelOk : Bool
  moodChannelId : Option String
deriving DecidableEq, Repr

/-- The confirmation block guarded by messageUpdated being false: post to
the response url when the metadata carries one, else in the originating
channel either a direct message (channel id starting with D) or an
ephemeral reply to the submitter; each attempt logs on failure. -/
def confirmationFallback (w : World) (userId : String) (meta : ViewMetadata) :
    List Effect :=
  if otruthy meta.response_url then
    .respUrlPost (meta.response_url.getD "") ::
      (if w.respUrlOk then [] else [.logMsg "Could not send response_url confirmation"])
  else if otruthy meta.channel_id then
    let ch := meta.channel_id.getD ""
    (if ch.startsWith "D" then [.postMessage ch] else [.postEphemeral ch userId]) ++
      (if w.confirmOk then [] else [.logMsg "Could not send confirmation"])
  else []

/-- Announcement to the configured mood channel, attempted inside its own
try block. -/
def moodChannelPost (w : World) : List Effect :=
  if otruthy w.moodChannelId then
    .postMessage (w.moodChannelId.getD "") ::
      (if w.moodChannelOk then [] else [.logMsg "Could not post to mood channel"])
  else []

/-- saveMoodEntry of the serverless events handler as an effect trace:
look the user up (a thrown lookup aborts into the outer catch), insert
the row without inspecting the result, try the in-place edit when both
channel id and message timestamp are present, run the confirmation
fallback when the edit did not happen, send the unconditional direct
message confirmation (not individually guarded, so its failure aborts
into the outer catch), then announce to the mood channel if configured. -/
def saveMoodEntry (w : World) (userId : String) (meta : ViewMetadata)
    (contextValue : Option String) (teamId : Option String) : List Effect :=
  .usersInfo userId ::
    match w.userInfoResult with
    | none => [.logMsg "Error saving mood entry:"]
    | some u =>
        .insert (moodRow userId u meta contextValue teamId) ::
          (let tryUpdate := otruthy meta.channel_id ∧ otruthy meta.message_ts
           let updEffects : List Effect :=
             if tryUpdate then
               .chatUpdate (meta.channel_id.getD "") (meta.message_ts.getD "") ::
                 (if w.updateOk then [] else [.logMsg "Could not update original message"])
             else []
           let messageUpdated : Bool := tryUpdate ∧ w.updateOk
           updEffects ++
             (if messageUpdated then [] else confirmationFallback w userId meta) ++
             (.postMessage userId ::
               (if w.dmOk then moodChannelPost w else [.logMsg "Error saving mood entry:"])))

/-- The decoded interaction payload shapes handleInteraction dispatches
on. -/
inductive InteractionPayload
  | blockActions (actionId : String) (value : ButtonValue)
      (payloadChannelId messageTs : Option String)
  | viewSubmission (callbackId : String) (meta : ViewMetadata)
      (contextInput : Option String) (userId : String) (teamId : Option String)
  | viewClosed (callbackId : String) (meta : ViewMetadata)
      (userId : String) (teamId : Option String)
  | otherPayload
deriving DecidableEq, Repr

/-- handleInteraction: a mood button press opens the modal seeded with
the metadata; a view_submission on the mood modal runs saveMoodEntry
with the context input mapped through OR null; a view_closed on the mood
modal runs saveMoodEntry with a null context; everything else is an
empty 200 acknowledgement.  Result is the status and the effect trace. -/
def handleInteraction (w : World) (p : InteractionPayload) : Nat × List Effect :=
  match p with
  | .blockActions actionId v payloadChannelId messageTs =>
      if actionId.startsWith "mood_" then
        (200, [.viewsOpen (modalMetadata v payloadChannelId messageTs)])
      else (200, [])
  | .viewSubmission callbackId meta contextInput userId teamId =>
      if callbackId = "mood_context_modal" then
        (200, saveMoodEntry w userId meta (jsOrNull contextInput) teamId)
      else (200, [])
  | .viewClosed callbackId meta userId teamId =>
      if callbackId = "mood_context_modal" then
        (200, saveMoodEntry w userId meta none teamId)
      else (200, [])
  | .otherPayload => (200, [])

/-- Rows inserted along an effect trace. -/
def insertedRows (es : List Effect) : List MoodRow :=
  es.filterMap fun e =>
    match e with
    | .insert r => some r
    | _ => none

/-- The row the Bolt view-submission handler inserts: unlike saveMoodEntry
it stores display_name OR real_name without the Someone fallback. -/
def eventsSubmitRow (userId : String) (u : UserInfo) (meta : ViewMetadata)
    (contextValue : Option String) (teamId : Option String) : MoodRow :=
  { slack_user_id := userId,
    slack_username := u.name,
    slack_display_name := jsOr u.display_name u.real_name,
    mood_score := meta.score,
    mood_emoji := meta.emoji,
    additional_context := contextValue,
    slack_team_id := teamId }

/-- The Bolt view-submission handler of the events entry point as an
effect trace: user lookup, insert, and on an insert error log and
return; otherwise the same edit, fallback, direct-message and
announcement sequence as saveMoodEntry. -/
def eventsSubmitHandler (w : World) (userId : String) (meta : ViewMetadata)
    (contextInput : Option String) (teamId : Option String) : List Effect :=
  .usersInfo userId ::
    match w.userInfoResult with
    | none => []
    | some u =>
        .insert (eventsSubmitRow userId u meta (jsOrNull contextInput) teamId) ::
          (if ¬ w.insertOk then [.logMsg "Error saving mood entry:"]
           else
             let tryUpdate := otruthy meta.channel_id ∧ otruthy meta.message_ts
             let updEffects : List Effect :=
               if tryUpdate then
                 .chatUpdate (meta.channel_id.getD "") (meta.message_ts.getD "") ::
                   (if w.updateOk then [] else [.logMsg "Could not update original message"])
               else []
             let messageUpdated : Bool := tryUpdate ∧ w.updateOk
             updEffects ++
               (if messageUpdated then [] else confirmationFallback w userId meta) ++
               (.postMessage userId ::
                 (if w.dmOk then moodChannelPost w else [])))

/-- Interpolation of a possibly-undefined environment variable into a
template literal: undefined stringifies to the text undefined. -/
def envInterp : Option String → String
  | none => "undefined"
  | some s => s

/-- Environment of the scheduler-triggered endpoint. -/
structure CronEnv where
  cronSecret : Option String
  skipWeekends : Option String
  moodChannelId : Option String
deriving DecidableEq, Repr

/-- The clock as the two entry points observe it: the short weekday name
rendered in the Europe/London timezone, and the day number returned by
getDay in the local timezone of the process (0 Sunday .. 6 Saturday).
The two coincide only when the local timezone agrees with London. -/
structure ClockEnv where
  londonWeekday : String
  localDay : Nat
deriving DecidableEq, Repr

/-- Result of the scheduler endpoint: status, message text and effects. -/
structure CronResult where
  status : Nat
  message : String
  effects : List Effect
deriving DecidableEq, Repr

/-- The daily check-in endpoint: 401 unless the authorization header is
Bearer followed by the configured secret; skip Saturday and Sunday in
the Europe/London weekday when SKIP_WEEKENDS is the string true; report
when no channel is configured; otherwise enumerate the channel members
(the membership fetch is an oracle that may fail with a 500), filter out
bots, deleted users and failed lookups, and send the check-in message to
each remaining member. -/
def dailyCheckinHandler (env : CronEnv) (clock : ClockEnv) (authHeader : Option String)
    (membersResult : Except String (List String)) (lookup : String → Option UserInfo) :
    CronResult :=
  if authHeader ≠ some ("Bearer " ++ envInterp env.cronSecret) then
    ⟨401, "Unauthorized", []⟩
  else if env.skipWeekends = some "true" ∧
      (clock.londonWeekday = "Sat" ∨ clock.londonWeekday = "Sun") then
    ⟨200, "Skipped - weekend", []⟩
  else if ¬ otruthy env.moodChannelId then
    ⟨200, "No channel configured", []⟩
  else
    match membersResult with
    | .error e => ⟨500, "Failed to fetch channel members", [.logMsg e]⟩
    | .ok members =>
        let lookups := members.map Effect.usersInfo
        let humans := members.filter fun m =>
          match lookup m with
          | some u => ¬ u.is_bot ∧ ¬ u.deleted
          | none => false
        ⟨200, "Daily check-in sent", lookups ++ humans.map Effect.postMessage⟩

/-- Configuration of the standalone send-daily-checkins script. -/
structure ScriptConfig where
  channelId : Option String
  userIds : List String
  skipWeekends : Bool
deriving DecidableEq, Repr

/-- main of the standalone script: when skipWeekends is set it returns
early if getDay in the LOCAL timezone is 0 or 6 (the source does not
pass a timezone here); otherwise it posts the check-in to the configured
channel if any and then to each configured user id. -/
def scriptMain (cfg : ScriptConfig) (clock : ClockEnv) : List Effect :=
  if cfg.skipWeekends ∧ (clock.localDay = 0 ∨ clock.localDay = 6) then []
  else
    (if otruthy cfg.channelId then [.postMessage (cfg.channelId.getD "")] else []) ++
      cfg.userIds.map Effect.postMessage

/-! Shared helper lemmas. -/

theorem parseIntJS_empty : parseIntJS "" = none := rfl

theorem mkSignature_ne_empty (hmacHex : String → String → String) (secret ts body : String) :
    mkSignature hmacHex secret ts body ≠ "" := by
  intro h
  have := congrArg String.data h
  simp [mkSignature, String.data_append] at this

theorem utf8ByteSize_append (a b : String) :
    (a ++ b).utf8ByteSize = a.utf8ByteSize + b.utf8ByteSize := by
  cases a with
  | mk da =>
    cases b with
    | mk db =>
      rw [show (String.mk da ++ String.mk db) = String.mk (da ++ db) from rfl]
      simp [String.utf8ByteSize_mk]

theorem string_append_left_cancel {a b c : String} (h : a ++ b = a ++ c) : b = c := by
  have hd := congrArg String.data h
  simp only [String.data_append] at hd
  exact String.ext (List.append_cancel_left hd)

@[simp] theorem insertedRows_nil : insertedRows [] = [] := rfl

@[simp] theorem insertedRows_append (a b : List Effect) :
    insertedRows (a ++ b) = insertedRows a ++ insertedRows b := by
  simp [insertedRows, List.filterMap_append]

@[simp] theorem insertedRows_cons_usersInfo (x : String) (es : List Effect) :
    insertedRows (.usersInfo x :: es) = insertedRows es := rfl

@[simp] theorem insertedRows_cons_insert (r : MoodRow) (es : List Effect) :
    insertedRows (.insert r :: es) = r :: insertedRows es := rfl

@[simp] theorem insertedRows_cons_viewsOpen (m : ViewMetadata) (es : List Effect) :
    insertedRows (.viewsOpen m :: es) = insertedRows es := rfl

@[simp] theorem insertedRows_cons_chatUpdate (c t : String) (es : List Effect) :
    insertedRows (.chatUpdate c t :: es) = insertedRows es := rfl

@[simp] theorem insertedRows_cons_respUrlPost (x : String) (es : List Effect) :
    insertedRows (.respUrlPost x :: es) = insertedRows es := rfl

@[simp] theorem insertedRows_cons_postMessage (x : String) (es : List Effect) :
    insertedRows (.postMessage x :: es) = insertedRows es := rfl

@[simp] theorem insertedRows_cons_postEphemeral (c x : String) (es : List Effect) :
    insertedRows (.postEphemeral c x :: es) = insertedRows es := rfl

@[simp] theorem insertedRows_cons_logMsg (x : String) (es : List Effect) :
    insertedRows (.logMsg x :: es) = insertedRows es := rfl

theorem insertedRows_confirmationFallback (w : World) (userId : String)
    (meta : ViewMetadata) : insertedRows (confirmationFallback w userId meta) = [] := by
  unfold confirmationFallback
  simp [apply_ite insertedRows]

theorem insertedRows_moodChannelPost (w : World) :
    insertedRows (moodChannelPost w) = [] := by
  unfold moodChannelPost
  split
  · split <;> simp
  · simp

theorem insertedRows_saveMoodEntry (w : World) (userId : String) (meta : ViewMetadata)
    (contextValue : Option String) (teamId : Option String) (u : UserInfo)
    (hu : w.userInfoResult = some u) :
    insertedRows (saveMoodEntry w userId meta contextValue teamId) =
      [moodRow userId u meta contextValue teamId] := by
  unfold saveMoodEntry
  rw [hu]
  simp [apply_ite insertedRows, insertedRows_confirmationFallback,
    insertedRows_moodChannelPost]

/-! Concrete fixtures used by witnesses and counterexamples. -/

/-- Sixty-four lowercase a characters, a stand-in hex digest. -/
def hexA : String := String.mk (List.replicate 64 'a')

/-- Sixty-four lowercase b characters, a second stand-in hex digest. -/
def hexB : String := String.mk (List.replicate 64 'b')

/-- A concrete collision-free-on-the-tested-inputs HMAC model with
fixed-width output, for evaluating the router at concrete requests. -/
def hmacTest : String → String → String :=
  fun _ m => if m = "v0:100:body2" then hexB else hexA

/-- A body parser yielding a body with no recognised fields. -/
def parseNone : String → String → ParsedBody :=
  fun _ _ => ⟨none, none, none, none⟩

/-- A body parser yielding a url_verification challenge body. -/
def parseChal : String → String → ParsedBody :=
  fun _ _ => ⟨some "url_verification", some "challenge123", none, none⟩

/-- A well-formed POST request signed with hmacTest at timestamp 100. -/
def req1 : SlackReq :=
  ⟨"POST", some "100", some ("v0=" ++ hexA), "application/x-www-form-urlencoded", "body1"⟩

/-- A POST request whose signature header is shorter than a computed
signature. -/
def req3 : SlackReq :=
  ⟨"POST", some "100", some "v0=abc", "application/x-www-form-urlencoded", "body1"⟩

/-- A lookup result with all profile fields present. -/
def u1 : UserInfo := ⟨some "alice", some "Alice", some "Alice Austin", false, false⟩

/-- A world where every external call succeeds and no announcement
channel is configured. -/
def w1 : World := ⟨some u1, true, true, true, true, true, true, none⟩

/-- A world where the database insert fails, everything else succeeds,
and an announcement channel CM is configured. -/
def wFail : World := ⟨some u1, false, true, true, true, true, true, some "CM"⟩

/-- Modal metadata carrying a conversation and a message timestamp. -/
def meta1 : ViewMetadata := ⟨3, "😐", some "C1", some "111.222", none⟩

/-- Modal metadata carrying no conversation, timestamp or callback. -/
def metaBare : ViewMetadata := ⟨3, "😐", none, none, none⟩

/-! Claim theorems. -/

/-- C1: for a non-challenge POST request carrying a numeric timestamp
header and a signature header, the router accepts (routes) the request
if and only if the signature header equals v0= followed by the HMAC of
v0:timestamp:rawBody under the secret and the timestamp is within 300
seconds of now; a stale timestamp is rejected with a 401 and no
dispatch even when the signature is otherwise correct; and any change
of the raw body whose HMAC differs from the original one turns a
correctly signed request into a 401 with no dispatch. -/
theorem webhook_signature_gate
    (hmacHex : String → String → String) (secret : String) (now : Int)
    (parse : String → String → ParsedBody) (req : SlackReq)
    (ts sig : String) (t : Int)
    (hmethod : req.method = "POST")
    (hts : req.timestampHeader = some ts)
    (hsig : req.signatureHeader = some sig)
    (hparse : parseIntJS ts = some t)
    (hchal : (parse req.contentType req.rawBody).typeField ≠ some "url_verification")
    (hlen : ∀ m₁ m₂ : String, (hmacHex secret m₁).utf8ByteSize = (hmacHex secret m₂).utf8ByteSize) :
    ((handler hmacHex secret now parse req).action.isRouted = true ↔
        sig = mkSignature hmacHex secret ts req.rawBody ∧ (now - t).natAbs ≤ 300)
    ∧ ((now - t).natAbs > 300 → handler hmacHex secret now parse req = ⟨401, .unauthorized⟩)
    ∧ (∀ body' : String,
        hmacHex secret (sigBasestring ts body') ≠ hmacHex secret (sigBasestring ts req.rawBody) →
        sig = mkSignature hmacHex secret ts req.rawBody →
        (parse req.contentType body').typeField ≠ some "url_verification" →
        handler hmacHex secret now parse { req with rawBody := body' } = ⟨401, .unauthorized⟩) := by
  have hts_ne : ts ≠ "" := by
    intro h
    rw [h, parseIntJS_empty] at hparse
    exact Option.noConfusion hparse
  refine ⟨?_, ?_, ?_⟩
  · by_cases hsige : sig = ""
    · subst hsige
      simp [handler, hmethod, hchal, verifySlackSignature, hts, hsig, RouteAction.isRouted]
      intro h
      exact absurd h.symm (mkSignature_ne_empty hmacHex secret ts req.rawBody)
    · by_cases hstale : (now - t).natAbs > 300
      · simp [handler, hmethod, hchal, verifySlackSignature, hts, hsig, hts_ne, hsige, hparse,
          hstale, RouteAction.isRouted]
      · by_cases hmatch : sig = mkSignature hmacHex secret ts req.rawBody
        · subst hmatch
          simp [handler, hmethod, hchal, verifySlackSignature, hts, hsig, hts_ne,
            mkSignature_ne_empty, hparse, hstale, timingSafeEqual, RouteAction.isRouted]
          constructor
          · intro _; omega
          · intro _
            by_cases hc : otruthy (parse req.contentType req.rawBody).command
            · simp [hc, RouteAction.isRouted]
            · by_cases hp : otruthy (parse req.contentType req.rawBody).payload
              · simp [hc, hp, RouteAction.isRouted]
              · by_cases he : (parse req.contentType req.rawBody).typeField = some "event_callback"
                · simp [hc, hp, he, RouteAction.isRouted]
                · simp [hc, hp, he, RouteAction.isRouted]
        · have hmatch' : mkSignature hmacHex secret ts req.rawBody ≠ sig := fun h => hmatch h.symm
          by_cases hblen :
            (mkSignature hmacHex secret ts req.rawBody).utf8ByteSize = sig.utf8ByteSize
          · simp [handler, hmethod, hchal, verifySlackSignature, hts, hsig, hts_ne, hsige,
              hparse, hstale, timingSafeEqual, hblen, hmatch', RouteAction.isRouted]
            intro h
            exact absurd h hmatch
          · simp [handler, hmethod, hchal, verifySlackSignature, hts, hsig, hts_ne, hsige,
              hparse, hstale, timingSafeEqual, hblen, RouteAction.isRouted]
            intro h
            exact absurd h hmatch
  · intro hstale
    by_cases hsige : sig = ""
    · subst hsige
      simp [handler, hmethod, hchal, verifySlackSignature, hts, hsig]
    · simp [handler, hmethod, hchal, verifySlackSignature, hts, hsig, hts_ne, hsige, hparse,
        hstale]
  · intro body' hneq hsigeq hchal'
    have hsige : sig ≠ "" := by
      rw [hsigeq]; exact mkSignature_ne_empty hmacHex secret ts req.rawBody
    by_cases hstale : (now - t).natAbs > 300
    · simp [handler, hmethod, hchal', verifySlackSignature, hts, hsig, hts_ne, hsige,
        hparse, hstale]
    · have hblen : (mkSignature hmacHex secret ts body').utf8ByteSize = sig.utf8ByteSize := by
        rw [hsigeq]
        simp only [mkSignature, utf8ByteSize_append]
        rw [hlen (sigBasestring ts body') (sigBasestring ts req.rawBody)]
      have hne2 : mkSignature hmacHex secret ts body' ≠ sig := by
        rw [hsigeq]
        intro h
        exact hneq (string_append_left_cancel (b := hmacHex secret (sigBasestring ts body')) h)
      simp [handler, hmethod, hchal', verifySlackSignature, hts, hsig, hts_ne, hsige, hparse,
        hstale, timingSafeEqual, hblen, hne2]

/-- C1 witness: at timestamp 100 with a correct signature the concrete
request req1 is routed; at now equal to 1000 the same request is a 401;
and mutating the body to body2 while keeping the original signature is
a 401. -/
theorem webhook_signature_gate_witness :
    (handler hmacTest "secret" 100 parseNone req1).action.isRouted = true
    ∧ handler hmacTest "secret" 1000 parseNone req1 = ⟨401, .unauthorized⟩
    ∧ handler hmacTest "secret" 100 parseNone { req1 with rawBody := "body2" } =
        ⟨401, .unauthorized⟩ := by
  have hlen : ∀ m₁ m₂ : String,
      (hmacTest "secret" m₁).utf8ByteSize = (hmacTest "secret" m₂).utf8ByteSize := by
    intro m₁ m₂
    simp only [hmacTest]
    split <;> split <;> decide
  have h100 := webhook_signature_gate hmacTest "secret" 100 parseNone req1
    "100" ("v0=" ++ hexA) 100 rfl rfl rfl (by decide) (by decide) hlen
  have h1000 := webhook_signature_gate hmacTest "secret" 1000 parseNone req1
    "100" ("v0=" ++ hexA) 100 rfl rfl rfl (by decide) (by decide) hlen
  refine ⟨h100.1.mpr ⟨by decide, by decide⟩, h1000.2.1 (by decide), ?_⟩
  exact h100.2.2 "body2" (by decide) (by decide) (by decide)

/-- C2: a POST request whose parsed body has type url_verification is
answered 200 with the echoed challenge value, for every secret, HMAC
function, current time and signature headers, so no signature check
takes part in the response. -/
theorem challenge_echo_no_signature_check
    (hmacHex : String → String → String) (secret : String) (now : Int)
    (parse : String → String → ParsedBody) (req : SlackReq)
    (hmethod : req.method = "POST")
    (hchal : (parse req.contentType req.rawBody).typeField = some "url_verification") :
    handler hmacHex secret now parse req =
      ⟨200, .challengeEcho (parse req.contentType req.rawBody).challenge⟩ := by
  simp [handler, hmethod, hchal]

/-- C2 witness: a challenge body on a request with a garbage signature
header and an absurd clock is echoed. -/
theorem challenge_echo_no_signature_check_witness :
    handler hmacTest "whatever" 999999 parseChal req3 =
      ⟨200, .challengeEcho (some "challenge123")⟩ :=
  challenge_echo_no_signature_check hmacTest "whatever" 999999 parseChal req3 rfl rfl

/-- C3: contrary to the claim that verifySlackSignature always returns a
Boolean, a fresh correctly timestamped request whose signature header
has a byte length different from the computed v0-prefixed 64-hex-char
signature makes crypto.timingSafeEqual raise instead of returning
false, so the router surfaces a server error rather than a 401. -/
theorem verify_signature_length_mismatch_raises :
    verifySlackSignature hmacTest "secret" 100 req3 = .error ()
    ∧ handler hmacTest "secret" 100 parseNone req3 = ⟨500, .signatureException⟩ :=
  ⟨rfl, rfl⟩

/-- C4 counterexample: a whitespace-only comment, which trims to the
empty string, is stored verbatim rather than as absent: the submission
path inserts a row whose additional_context is a single space. -/
theorem comment_whitespace_stored_verbatim :
    (" " : String).data.all Char.isWhitespace = true
    ∧ insertedRows (handleInteraction w1
        (.viewSubmission "mood_context_modal" meta1 (some " ") "U1" none)).2
        = [moodRow "U1" u1 meta1 (some " ") none]
    ∧ (moodRow "U1" u1 meta1 (some " ") none).additional_context = some " " := by
  refine ⟨by decide, rfl, rfl⟩

/-- C4 amended: the five mood action ids are in 1:1 correspondence with
the five score and emoji pairs, and a submission on a modal opened from
a mood button inserts exactly one row whose score and emoji are those
of the button and whose additional_context is exactly the text entered,
with a missing or empty entry stored as absent; whitespace-only text is
kept verbatim, not treated as absent. -/
theorem mood_submission_row (m : Mood) (hm : m ∈ MOODS)
    (src rurl payloadCh msgTs : Option String) (u : UserInfo) (v : Option String)
    (userId : String) (teamId : Option String) (w : World)
    (hu : w.userInfoResult = some u) :
    (∀ m₁ ∈ MOODS, ∀ m₂ ∈ MOODS,
        (m₁.action_id = m₂.action_id ↔ m₁.score = m₂.score ∧ m₁.emoji = m₂.emoji))
    ∧ insertedRows (handleInteraction w (.viewSubmission "mood_context_modal"
          (modalMetadata (buttonValue m src rurl) payloadCh msgTs) v userId teamId)).2
        = [moodRow userId u (modalMetadata (buttonValue m src rurl) payloadCh msgTs)
            (jsOrNull v) teamId]
    ∧ (moodRow userId u (modalMetadata (buttonValue m src rurl) payloadCh msgTs)
        (jsOrNull v) teamId).mood_score = m.score
    ∧ (moodRow userId u (modalMetadata (buttonValue m src rurl) payloadCh msgTs)
        (jsOrNull v) teamId).mood_emoji = m.emoji
    ∧ (moodRow userId u (modalMetadata (buttonValue m src rurl) payloadCh msgTs)
        (jsOrNull v) teamId).additional_context
        = (match v with
           | none => none
           | some s => if s = "" then none else some s) := by
  refine ⟨by decide, ?_, rfl, rfl, ?_⟩
  · simp only [handleInteraction, if_pos rfl]
    exact insertedRows_saveMoodEntry w userId _ (jsOrNull v) teamId u hu
  · cases v with
    | none => rfl
    | some s =>
        by_cases hs : s = "" <;> simp [jsOrNull, otruthy, hs, moodRow]

/-- C4 witness: pressing the Okay button and submitting the text tired
inserts exactly the row with score 3, the neutral emoji and the comment
tired. -/
theorem mood_submission_row_witness :
    insertedRows (handleInteraction w1 (.viewSubmission "mood_context_modal"
        (modalMetadata (buttonValue ⟨3, "😐", "Okay", "mood_3"⟩ none none)
          (some "C1") (some "111.222")) (some "tired") "U1" (some "T1"))).2
      = [moodRow "U1" u1 (modalMetadata (buttonValue ⟨3, "😐", "Okay", "mood_3"⟩ none none)
          (some "C1") (some "111.222")) (some "tired") (some "T1")] := by
  have h := mood_submission_row ⟨3, "😐", "Okay", "mood_3"⟩ (by decide)
    none none (some "C1") (some "111.222") u1 (some "tired") "U1" (some "T1") w1 rfl
  exact h.2.1

/-- C5: the view_closed dismissal path inserts exactly the rows the
view_submission path inserts for the same token, user and team, each
with the additional_context field forced absent. -/
theorem dismiss_row_matches_submit_row
    (w : World) (u : UserInfo) (hu : w.userInfoResult = some u)
    (meta : ViewMetadata) (v : Option String) (userId : String) (teamId : Option String) :
    insertedRows (handleInteraction w (.viewClosed "mood_context_modal" meta userId teamId)).2
      = (insertedRows (handleInteraction w
            (.viewSubmission "mood_context_modal" meta v userId teamId)).2).map
          (fun r => { r with additional_context := none }) := by
  have h1 := insertedRows_saveMoodEntry w userId meta none teamId u hu
  have h2 := insertedRows_saveMoodEntry w userId meta (jsOrNull v) teamId u hu
  simp [handleInteraction, h1, h2, moodRow]

/-- C5 witness: dismissing the mood modal with token meta1 inserts the
same row as submitting tired, with the comment absent. -/
theorem dismiss_row_matches_submit_row_witness :
    insertedRows (handleInteraction w1 (.viewClosed "mood_context_modal" meta1 "U1" none)).2
      = (insertedRows (handleInteraction w1
            (.viewSubmission "mood_context_modal" meta1 (some "tired") "U1" none)).2).map
          (fun r => { r with additional_context := none }) :=
  dismiss_row_matches_submit_row w1 u1 rfl meta1 (some "tired") "U1" none

/-- C6 counterexample: saveMoodEntry never inspects the insert result,
so with a failing insert the in-place edit, the unconditional direct
message and the announcement post all still run. -/
theorem part002_continues_after_insert_failure :
    wFail.insertOk = false
    ∧ (saveMoodEntry wFail "U1" meta1 none none).contains (.chatUpdate "C1" "111.222") = true
    ∧ (saveMoodEntry wFail "U1" meta1 none none).contains (.postMessage "U1") = true
    ∧ (saveMoodEntry wFail "U1" meta1 none none).contains (.postMessage "CM") = true := by
  refine ⟨rfl, by decide, by decide, by decide⟩

/-- C6 amended: the Bolt view-submission handler stops after logging a
failed insert, with no edit, confirmation, direct message or
announcement afterwards; the serverless saveMoodEntry never inspects
the insert result, so its trace is identical whether the insert failed
or succeeded and every notification still runs. -/
theorem insert_failure_handling
    (w : World) (u : UserInfo) (hu : w.userInfoResult = some u) (hins : w.insertOk = false)
    (userId : String) (meta : ViewMetadata) (v : Option String) (teamId : Option String) :
    eventsSubmitHandler w userId meta v teamId =
      [.usersInfo userId, .insert (eventsSubmitRow userId u meta (jsOrNull v) teamId),
        .logMsg "Error saving mood entry:"]
    ∧ saveMoodEntry w userId meta (jsOrNull v) teamId
        = saveMoodEntry { w with insertOk := true } userId meta (jsOrNull v) teamId := by
  constructor
  · simp [eventsSubmitHandler, hu, hins]
  · rfl

/-- C6 amended witness: with a failing insert the Bolt submit handler
trace stops at the log line, and the saveMoodEntry trace is unchanged
by the failure. -/
theorem insert_failure_handling_witness :
    eventsSubmitHandler wFail "U1" meta1 (some "tired") none =
      [.usersInfo "U1", .insert (eventsSubmitRow "U1" u1 meta1 (some "tired") none),
        .logMsg "Error saving mood entry:"]
    ∧ saveMoodEntry wFail "U1" meta1 (some "tired") none
        = saveMoodEntry { wFail with insertOk := true } "U1" meta1 (some "tired") none :=
  insert_failure_handling wFail u1 rfl rfl "U1" meta1 (some "tired") none

/-- The effects of a trace that deliver a visible message: response_url
posts, chat messages and ephemeral replies, ignoring log lines. -/
def sendEffects (es : List Effect) : List Effect :=
  es.filter fun e =>
    match e with
    | .respUrlPost _ => true
    | .postMessage _ => true
    | .postEphemeral _ _ => true
    | _ => false

/-- C7 counterexample: a token carrying neither a callback URL nor a
conversation id yields an empty fallback block, so zero fallback
confirmations are sent rather than exactly one: after the row write
only the unconditional direct message to the submitter goes out. -/
theorem fallback_absent_without_mechanism :
    metaBare.response_url = none
    ∧ metaBare.channel_id = none
    ∧ confirmationFallback w1 "U1" metaBare = []
    ∧ saveMoodEntry w1 "U1" metaBare none none =
        [.usersInfo "U1", .insert (moodRow "U1" u1 metaBare none none), .postMessage "U1"] :=
  ⟨rfl, rfl, rfl, rfl⟩

/-- C7 amended: after the row write, when the token carries a truthy
conversation id and message timestamp and the edit succeeds, the trace
holds exactly one chat update and no fallback block; otherwise the
fallback block runs and sends exactly one confirmation chosen in
priority order response_url, then direct message when the conversation
id starts with D, then ephemeral reply to the submitter, and sends
nothing when the token carries neither a callback URL nor a
conversation id. -/
theorem notify_after_row_write
    (w : World) (u : UserInfo) (hu : w.userInfoResult = some u) (hins : w.insertOk = true)
    (userId : String) (meta : ViewMetadata) (ctx : Option String) (teamId : Option String) :
    ((otruthy meta.channel_id = true ∧ otruthy meta.message_ts = true ∧ w.updateOk = true) →
        saveMoodEntry w userId meta ctx teamId =
          [.usersInfo userId, .insert (moodRow userId u meta ctx teamId),
            .chatUpdate (meta.channel_id.getD "") (meta.message_ts.getD "")] ++
            .postMessage userId ::
              (if w.dmOk then moodChannelPost w else [.logMsg "Error saving mood entry:"]))
    ∧ ((otruthy meta.channel_id = true ∧ otruthy meta.message_ts = true ∧ w.updateOk = false) →
        saveMoodEntry w userId meta ctx teamId =
          [.usersInfo userId, .insert (moodRow userId u meta ctx teamId),
            .chatUpdate (meta.channel_id.getD "") (meta.message_ts.getD ""),
            .logMsg "Could not update original message"] ++
            confirmationFallback w userId meta ++
            .postMessage userId ::
              (if w.dmOk then moodChannelPost w else [.logMsg "Error saving mood entry:"]))
    ∧ (¬ (otruthy meta.channel_id = true ∧ otruthy meta.message_ts = true) →
        saveMoodEntry w userId meta ctx teamId =
          [.usersInfo userId, .insert (moodRow userId u meta ctx teamId)] ++
            confirmationFallback w userId meta ++
            .postMessage userId ::
              (if w.dmOk then moodChannelPost w else [.logMsg "Error saving mood entry:"]))
    ∧ sendEffects (confirmationFallback w userId meta) =
        (if otruthy meta.response_url then [.respUrlPost (meta.response_url.getD "")]
         else if otruthy meta.channel_id then
           (if (meta.channel_id.getD "").startsWith "D" then
              [.postMessage (meta.channel_id.getD "")]
            else [.postEphemeral (meta.channel_id.getD "") userId])
         else []) := by
  refine ⟨?_, ?_, ?_, ?_⟩
  · rintro ⟨h1, h2, h3⟩
    simp [saveMoodEntry, hu, h1, h2, h3]
  · rintro ⟨h1, h2, h3⟩
    simp [saveMoodEntry, hu, h1, h2, h3]
  · intro h
    simp [saveMoodEntry, hu, h]
  · unfold confirmationFallback sendEffects
    by_cases hr : otruthy meta.response_url = true
    · by_cases hro : w.respUrlOk = true <;> simp [hr, hro, List.filter]
    · by_cases hch : otruthy meta.channel_id = true
      · by_cases hd : (meta.channel_id.getD "").startsWith "D" = true <;>
          by_cases hco : w.confirmOk = true <;>
            simp [hr, hch, hd, hco, List.filter]
      · simp [hr, hch, List.filter]

/-- C7 witness: with token meta1 and a successful edit the trace is the
lookup, the insert, one chat update and the unconditional direct
message, with no fallback sends. -/
theorem notify_after_row_write_witness :
    saveMoodEntry w1 "U1" meta1 (some "tired") none =
      [.usersInfo "U1", .insert (moodRow "U1" u1 meta1 (some "tired") none),
        .chatUpdate "C1" "111.222"] ++
        .postMessage "U1" ::
          (if w1.dmOk then moodChannelPost w1 else [.logMsg "Error saving mood entry:"]) := by
  have h := notify_after_row_write w1 u1 rfl rfl "U1" meta1 (some "tired") none
  exact h.1 ⟨rfl, rfl, rfl⟩

/-- C8: the five configured scores all lie in the closed range 1 to 5,
each score occurs with exactly one emoji, and every row inserted by the
submit or the dismiss path of a modal opened from a mood button carries
one of the five configured score and emoji pairs and satisfies the
table check constraint. -/
theorem mood_score_invariant (m : Mood) (hm : m ∈ MOODS)
    (src rurl payloadCh msgTs v : Option String) (u : UserInfo)
    (userId : String) (teamId : Option String) (w : World)
    (hu : w.userInfoResult = some u) :
    (∀ m' ∈ MOODS, 1 ≤ m'.score ∧ m'.score ≤ 5)
    ∧ (∀ m₁ ∈ MOODS, ∀ m₂ ∈ MOODS, m₁.score = m₂.score → m₁.emoji = m₂.emoji)
    ∧ (∀ r ∈ insertedRows (handleInteraction w (.viewSubmission "mood_context_modal"
            (modalMetadata (buttonValue m src rurl) payloadCh msgTs) v userId teamId)).2 ++
          insertedRows (handleInteraction w (.viewClosed "mood_context_modal"
            (modalMetadata (buttonValue m src rurl) payloadCh msgTs) userId teamId)).2,
        (r.mood_score, r.mood_emoji) ∈ MOODS.map (fun x => (x.score, x.emoji))
          ∧ moodScoreCheck r = true) := by
  have hall : ∀ m' ∈ MOODS, 1 ≤ m'.score ∧ m'.score ≤ 5 := by decide
  refine ⟨hall, by decide, ?_⟩
  have hs := insertedRows_saveMoodEntry w userId
    (modalMetadata (buttonValue m src rurl) payloadCh msgTs) (jsOrNull v) teamId u hu
  have hc := insertedRows_saveMoodEntry w userId
    (modalMetadata (buttonValue m src rurl) payloadCh msgTs) none teamId u hu
  intro r hr
  simp [handleInteraction, hs, hc] at hr
  have hpair : (m.score, m.emoji) ∈ MOODS.map fun x => (x.score, x.emoji) :=
    List.mem_map_of_mem _ hm
  have hrange := hall m hm
  rcases hr with h | h <;> subst h <;>
    exact ⟨hpair, by simp [moodScoreCheck, moodRow, modalMetadata, buttonValue]; omega⟩

/-- C8 witness: the row inserted by dismissing a modal opened from the
Good button carries the pair of score 4 and its emoji and passes the
check constraint. -/
theorem mood_score_invariant_witness :
    ((moodRow "U1" u1 (modalMetadata (buttonValue ⟨4, "🙂", "Good", "mood_4"⟩ none none)
        (some "C1") none) none none).mood_score,
      (moodRow "U1" u1 (modalMetadata (buttonValue ⟨4, "🙂", "Good", "mood_4"⟩ none none)
        (some "C1") none) none none).mood_emoji) ∈ MOODS.map (fun x => (x.score, x.emoji))
    ∧ moodScoreCheck (moodRow "U1" u1 (modalMetadata
        (buttonValue ⟨4, "🙂", "Good", "mood_4"⟩ none none) (some "C1") none) none none)
      = true :=
  (mood_score_invariant ⟨4, "🙂", "Good", "mood_4"⟩ (by decide)
      none none (some "C1") none none u1 "U1" none w1 rfl).2.2
    (moodRow "U1" u1 (modalMetadata (buttonValue ⟨4, "🙂", "Good", "mood_4"⟩ none none)
      (some "C1") none) none none)
    (by decide)

/-- A scheduler environment with a secret, skipping enabled and a
configured channel. -/
def envCron : CronEnv := ⟨some "s3cr3t", some "true", some "CM"⟩

/-- A clock on a Monday everywhere. -/
def clkMon : ClockEnv := ⟨"Mon", 1⟩

/-- A clock whose London weekday is Saturday while the local day number
is Friday, as seen from a timezone west of London late on a Friday. -/
def clkSatLondon : ClockEnv := ⟨"Sat", 5⟩

/-- A clock on a Saturday in both respects. -/
def clkSatBoth : ClockEnv := ⟨"Sat", 6⟩

/-- C9: a request to the scheduler endpoint whose authorization header
differs from Bearer followed by the configured secret is answered 401
with an empty effect list, so no message is sent and no row is
inserted. -/
theorem cron_unauthorized_no_effects (env : CronEnv) (clock : ClockEnv)
    (authHeader : Option String) (membersResult : Except String (List String))
    (lookup : String → Option UserInfo)
    (h : authHeader ≠ some ("Bearer " ++ envInterp env.cronSecret)) :
    dailyCheckinHandler env clock authHeader membersResult lookup = ⟨401, "Unauthorized", []⟩
    ∧ insertedRows (dailyCheckinHandler env clock authHeader membersResult lookup).effects
        = [] := by
  have he : dailyCheckinHandler env clock authHeader membersResult lookup =
      ⟨401, "Unauthorized", []⟩ := by
    simp [dailyCheckinHandler, h]
  exact ⟨he, by rw [he]; rfl⟩

/-- C9 witness: a wrong bearer token on a weekday with members available
yields the 401 and the empty effect list. -/
theorem cron_unauthorized_no_effects_witness :
    dailyCheckinHandler envCron clkMon (some "Bearer wrong") (.ok ["U1"]) (fun _ => some u1)
      = ⟨401, "Unauthorized", []⟩
    ∧ insertedRows (dailyCheckinHandler envCron clkMon (some "Bearer wrong") (.ok ["U1"])
        (fun _ => some u1)).effects = [] :=
  cron_unauthorized_no_effects envCron clkMon (some "Bearer wrong") (.ok ["U1"])
    (fun _ => some u1) (by decide)

/-- C10 counterexample: the standalone script keys its weekend skip on
the local getDay value with no timezone fixed, so on a clock whose
Europe/London weekday is Saturday while the local day number is Friday
it still posts the check-in although weekend skipping is enabled. -/
theorem script_ignores_london_weekend :
    clkSatLondon.londonWeekday = "Sat"
    ∧ scriptMain ⟨some "C9", [], true⟩ clkSatLondon = [.postMessage "C9"] :=
  ⟨rfl, rfl⟩

/-- C10 amended: with weekend skipping enabled the scheduler endpoint
answers Skipped - weekend with no effects whenever the Europe/London
weekday is Sat or Sun and authorization passes, while the standalone
script skips exactly when the local getDay value is 0 or 6, which
matches the London weekday only when the process timezone agrees with
Europe/London. -/
theorem weekend_skip_behavior (env : CronEnv) (clock : ClockEnv)
    (membersResult : Except String (List String)) (lookup : String → Option UserInfo)
    (cfg : ScriptConfig)
    (hskip : env.skipWeekends = some "true")
    (hday : clock.londonWeekday = "Sat" ∨ clock.londonWeekday = "Sun")
    (hcfg : cfg.skipWeekends = true)
    (hlocal : clock.localDay = 0 ∨ clock.localDay = 6) :
    dailyCheckinHandler env clock (some ("Bearer " ++ envInterp env.cronSecret))
        membersResult lookup
      = ⟨200, "Skipped - weekend", []⟩
    ∧ scriptMain cfg clock = [] := by
  constructor
  · rcases hday with h | h <;> simp [dailyCheckinHandler, hskip, h]
  · rcases hlocal with h | h <;> simp [scriptMain, hcfg, h]

/-- C10 amended witness: on a Saturday in both senses with the correct
bearer token the endpoint reports the skip with no effects and the
script sends nothing. -/
theorem weekend_skip_behavior_witness :
    dailyCheckinHandler envCron clkSatBoth (some ("Bearer " ++ envInterp envCron.cronSecret))
        (.ok ["U1"]) (fun _ => some u1)
      = ⟨200, "Skipped - weekend", []⟩
    ∧ scriptMain ⟨some "C9", ["U5"], true⟩ clkSatBoth = [] :=
  weekend_skip_behavior envCron clkSatBoth (.ok ["U1"]) (fun _ => some u1)
    ⟨some "C9", ["U5"], true⟩ rfl (Or.inl rfl) rfl (Or.inr rfl)

end MoodTracker
